import Mathlib

set_option maxRecDepth 4000

/-!
Verification of the MiniVIE MPL control stack (shallow embedding).

The definitions below are translated from the Python sources of the
MiniVIE-OHSU-Capstone repository:

* `python/minivie/mpl/open_nfu_protocol.py` — wire-protocol codec
  (`encode_checksum`, `encode_position_velocity_command`,
  `encode_position_velocity_impedance_command`, `encode_cmd_state_limb_idle`,
  `encode_cmd_state_limb_soft_reset`, `parse_heartbeat`);
* `python/minivie/mpl/open_nfu/open_nfu_sink.py` — heartbeat routing and the
  bus-voltage shutdown monitor (`NfuSink.parse_messages`);
* `python/minivie/pattern_rec/assessment.py` — the MotionTester and
  TargetAchievementControl assessment engines;
* `python/minivie/scenarios/__init__.py` — the `Scenario` orchestrator
  (`update`, `gain`, `hand_gain`, `command_string`).

Bytes are modelled as `Nat` (with `% 256` where the source wraps), Python
floats as `ℚ`, and IEEE-754 binary32 little-endian packing
(`struct.pack`'s `f` code) as an abstract serializer `f32 : ℚ → List Nat`
about which theorems assume only what they need (each float packs to 4
bytes).  Fallible code returns `Option`/`Except`, and stateful code is
modelled by explicit state passing plus an explicit trace of the calls the
Python code makes on its collaborators.
-/

namespace MiniVIE

/-! ## Wire-protocol codec (`mpl/open_nfu_protocol.py`) -/

/-- `struct.pack('H', n)` on the little-endian targets the code runs on:
two bytes, least significant first. -/
def u16le (n : Nat) : List Nat := [n % 256, n / 256 % 256]

/-- `encode_checksum` (open_nfu_protocol.py:244-253):
`payload.append(sum(payload) % 256); return payload`. -/
def encode_checksum (payload : List Nat) : List Nat :=
  payload ++ [payload.sum % 256]

/-- Bytes of `struct.pack('HBB' + str(n) + 'f', length, msg_type, msg_id, *floats)`
relative to an abstract binary32 little-endian serializer `f32`. -/
def packHBBf (f32 : ℚ → List Nat) (len msgType msgId : Nat) (floats : List ℚ) :
    List Nat :=
  u16le len ++ [msgType % 256, msgId % 256] ++ (floats.map f32).flatten

/-- `encode_position_velocity_command` (open_nfu_protocol.py:191-207).
`payload = np.append(position, velocity)`; `struct.Struct('HBB54f')` packs
exactly 54 floats (a different count raises `struct.error`, modelled as
`none`); the message is `pack(219, 5, 1, *payload)` with the checksum
appended by `encode_checksum`. -/
def encode_position_velocity_command (f32 : ℚ → List Nat)
    (position velocity : List ℚ) : Option (List Nat) :=
  if (position ++ velocity).length = 54 then
    some (encode_checksum (packHBBf f32 219 5 1 (position ++ velocity)))
  else none

/-- `encode_position_velocity_impedance_command` (open_nfu_protocol.py:167-188).
`payload = np.append(np.append(position, velocity), impedance)`;
`struct.Struct('HBB81f')` packs exactly 81 floats; the message is
`pack(327, 5, 8, *payload)` with the checksum appended. -/
def encode_position_velocity_impedance_command (f32 : ℚ → List Nat)
    (position velocity impedance : List ℚ) : Option (List Nat) :=
  if (position ++ velocity ++ impedance).length = 81 then
    some (encode_checksum (packHBBf f32 327 5 8 (position ++ velocity ++ impedance)))
  else none

/-- `encode_cmd_state_limb_idle` (open_nfu_protocol.py:226-232):
`encode_checksum(bytearray([3, 0, 10, 10]))`. -/
def encode_cmd_state_limb_idle : List Nat :=
  encode_checksum [3, 0, 10, 10]

/-- `encode_cmd_state_limb_soft_reset` (open_nfu_protocol.py:235-241):
`encode_checksum(bytearray([3, 0, 11, 11]))`. -/
def encode_cmd_state_limb_soft_reset : List Nat :=
  encode_checksum [3, 0, 11, 11]

/-- The trailing byte of a frame equals the sum of all preceding bytes mod 256. -/
def checksumOk (frame : List Nat) : Prop :=
  frame.getLast? = some (frame.dropLast.sum % 256)

lemma checksumOk_encode_checksum (payload : List Nat) :
    checksumOk (encode_checksum payload) := by
  unfold checksumOk encode_checksum
  rw [List.getLast?_concat, List.dropLast_concat]

lemma length_flatten_map_f32 (f32 : ℚ → List Nat)
    (hf : ∀ x, (f32 x).length = 4) (l : List ℚ) :
    ((l.map f32).flatten).length = 4 * l.length := by
  induction l with
  | nil => simp
  | cons a t ih => simp [hf a, ih, Nat.mul_succ, Nat.add_comm]

end MiniVIE

/-- C1: every command frame produced by the codec — position+velocity,
position+velocity+impedance, idle, and soft-reset — carries as its trailing
byte the sum of all preceding bytes of the frame modulo 256, for every
choice of float payload and of binary32 serialization. -/
theorem C1_codec_trailing_checksum :
    (∀ (f32 : ℚ → List Nat) (position velocity : List ℚ) (frame : List Nat),
        MiniVIE.encode_position_velocity_command f32 position velocity
          = some frame → MiniVIE.checksumOk frame) ∧
    (∀ (f32 : ℚ → List Nat) (position velocity impedance : List ℚ)
        (frame : List Nat),
        MiniVIE.encode_position_velocity_impedance_command
            f32 position velocity impedance = some frame →
          MiniVIE.checksumOk frame) ∧
    MiniVIE.checksumOk MiniVIE.encode_cmd_state_limb_idle ∧
    MiniVIE.checksumOk MiniVIE.encode_cmd_state_limb_soft_reset := by
  refine ⟨?_, ?_, ?_, ?_⟩
  · intro f32 position velocity frame h
    unfold MiniVIE.encode_position_velocity_command at h
    split at h
    · cases h
      exact MiniVIE.checksumOk_encode_checksum _
    · cases h
  · intro f32 position velocity impedance frame h
    unfold MiniVIE.encode_position_velocity_impedance_command at h
    split at h
    · cases h
      exact MiniVIE.checksumOk_encode_checksum _
    · cases h
  · exact MiniVIE.checksumOk_encode_checksum _
  · exact MiniVIE.checksumOk_encode_checksum _

/-- Closed witness for `C1_codec_trailing_checksum`: instantiate both frame
encoders at concrete 27-element inputs and a concrete 4-byte serializer. -/
theorem C1_codec_trailing_checksum_witness :
    MiniVIE.checksumOk
      ((MiniVIE.encode_position_velocity_command (fun _ => [0, 0, 0, 0])
        (List.replicate 27 0) (List.replicate 27 0)).getD []) ∧
    MiniVIE.checksumOk
      ((MiniVIE.encode_position_velocity_impedance_command (fun _ => [0, 0, 0, 0])
        (List.replicate 27 0) (List.replicate 27 0)
        (List.replicate 27 0)).getD []) := by
  constructor
  · exact C1_codec_trailing_checksum.1 (fun _ => [0, 0, 0, 0])
      (List.replicate 27 0) (List.replicate 27 0) _ (by decide)
  · exact C1_codec_trailing_checksum.2.1 (fun _ => [0, 0, 0, 0])
      (List.replicate 27 0) (List.replicate 27 0) (List.replicate 27 0) _
      (by decide)

/-- C2: with 27-element position and velocity vectors,
`encode_position_velocity_command` yields a 221-byte frame made of the
little-endian u16 length field 219, msg_type byte 5, msg_id byte 1, the 27
positions followed by the 27 velocities as 54 serialized float32 values, and
a trailing checksum byte; with a 27-element impedance vector appended,
`encode_position_velocity_impedance_command` yields a 329-byte frame with
length field 327, msg_type 5, msg_id 8, and 81 serialized float32 values
(positions, velocities, impedances) before the checksum byte. -/
theorem C2_command_frame_layout (f32 : ℚ → List Nat)
    (position velocity impedance : List ℚ)
    (hf : ∀ x, (f32 x).length = 4)
    (hp : position.length = 27) (hv : velocity.length = 27)
    (hi : impedance.length = 27) :
    (MiniVIE.u16le 219 = [219, 0] ∧
      MiniVIE.encode_position_velocity_command f32 position velocity =
        some (MiniVIE.u16le 219 ++ [5, 1]
          ++ ((position ++ velocity).map f32).flatten
          ++ [(MiniVIE.u16le 219 ++ [5, 1]
              ++ ((position ++ velocity).map f32).flatten).sum % 256]) ∧
      ∀ frame, MiniVIE.encode_position_velocity_command f32 position velocity =
        some frame → frame.length = 221) ∧
    (MiniVIE.u16le 327 = [71, 1] ∧
      MiniVIE.encode_position_velocity_impedance_command
          f32 position velocity impedance =
        some (MiniVIE.u16le 327 ++ [5, 8]
          ++ ((position ++ velocity ++ impedance).map f32).flatten
          ++ [(MiniVIE.u16le 327 ++ [5, 8]
              ++ ((position ++ velocity ++ impedance).map f32).flatten).sum % 256]) ∧
      ∀ frame, MiniVIE.encode_position_velocity_impedance_command
          f32 position velocity impedance = some frame → frame.length = 329) := by
  have h54 : (position ++ velocity).length = 54 := by
    simp [hp, hv]
  have h81 : (position ++ velocity ++ impedance).length = 81 := by
    simp [hp, hv, hi]
  have hpv : ((position ++ velocity).map f32).flatten.length = 216 := by
    rw [MiniVIE.length_flatten_map_f32 f32 hf, h54]
  have hpvi : ((position ++ velocity ++ impedance).map f32).flatten.length = 324 := by
    rw [MiniVIE.length_flatten_map_f32 f32 hf, h81]
  refine ⟨⟨rfl, ?_, ?_⟩, ⟨rfl, ?_, ?_⟩⟩
  · unfold MiniVIE.encode_position_velocity_command
    rw [if_pos h54]
    rfl
  · intro frame h
    unfold MiniVIE.encode_position_velocity_command at h
    rw [if_pos h54] at h
    cases h
    simp only [MiniVIE.encode_checksum, MiniVIE.packHBBf, MiniVIE.u16le,
      List.length_append, List.length_cons, List.length_nil, hpv]
  · unfold MiniVIE.encode_position_velocity_impedance_command
    rw [if_pos h81]
    rfl
  · intro frame h
    unfold MiniVIE.encode_position_velocity_impedance_command at h
    rw [if_pos h81] at h
    cases h
    simp only [MiniVIE.encode_checksum, MiniVIE.packHBBf, MiniVIE.u16le,
      List.length_append, List.length_cons, List.length_nil, hpvi]

/-- Closed witness for `C2_command_frame_layout` at concrete zero vectors and a
concrete 4-byte serializer. -/
theorem C2_command_frame_layout_witness :
    ((MiniVIE.encode_position_velocity_command (fun _ => [0, 0, 0, 0])
        (List.replicate 27 0) (List.replicate 27 0)).getD []).length = 221 ∧
    ((MiniVIE.encode_position_velocity_impedance_command (fun _ => [0, 0, 0, 0])
        (List.replicate 27 0) (List.replicate 27 0)
        (List.replicate 27 0)).getD []).length = 329 := by
  obtain ⟨⟨-, hpv, hpvlen⟩, ⟨-, hpvi, hpvilen⟩⟩ :=
    C2_command_frame_layout (fun _ => [0, 0, 0, 0])
      (List.replicate 27 0) (List.replicate 27 0) (List.replicate 27 0)
      (fun _ => rfl) (by simp) (by simp) (by simp)
  constructor
  · rw [hpv, Option.getD_some]
    exact hpvlen _ hpv
  · rw [hpvi, Option.getD_some]
    exact hpvilen _ hpvi

namespace MiniVIE

/-! ## Heartbeat decoding (`parse_heartbeat`, open_nfu_protocol.py:121-164;
`decode_heartbeat_msg_v2` in open_nfu.py:406-452 is byte-identical logic). -/

/-- `BOOTSTATE` member names (open_nfu_protocol.py:70-88); the auto-numbering
`__new__` assigns values 0..15 in declaration order. -/
def bootstateNames : List String :=
  ["BOOTSTATE_UNKNOWN", "BOOTSTATE_INIT_REQ", "BOOTSTATE_INIT_ACK",
   "BOOTSTATE_NODELIST_REQ", "BOOTSTATE_NODELIST_ACK", "BOOTSTATE_NOS_DIAG_REQ",
   "BOOTSTATE_NOS_DIAG_ACK", "BOOTSTATE_PERCEPT_REQ", "BOOTSTATE_PERCEPT_ACK",
   "BOOTSTATE_COMMAND_REQ", "BOOTSTATE_COMMAND_ACK", "BOOTSTATE_UP",
   "BOOTSTATE_IDLE_REQ", "BOOTSTATE_IDLE_ACK", "BOOTSTATE_ERR",
   "BOOTSTATE_DOWN"]

/-- `LcSwState` lookup (open_nfu_protocol.py:91-104): explicit values 0..9
plus `SWSTATE_UNK = 15`; any other byte raises `ValueError` (here `none`). -/
def lcSwStateName (n : Nat) : Option String :=
  match n with
  | 0 => some "SWSTATE_INIT"
  | 1 => some "SWSTATE_PRG"
  | 2 => some "SWSTATE_FS"
  | 3 => some "SWSTATE_NOS_CONTROL_STIMULATION"
  | 4 => some "SWSTATE_NOS_IDLE"
  | 5 => some "SWSTATE_NOS_SLEEP"
  | 6 => some "SWSTATE_NOS_CONFIGURATION"
  | 7 => some "SWSTATE_NOS_HOMING"
  | 8 => some "SWSTATE_NOS_DATA_ACQUISITION"
  | 9 => some "SWSTATE_NOS_DIAGNOSTICS"
  | 15 => some "SWSTATE_UNK"
  | _ => none

/-- Decoded heartbeat record (`default_status_structure` field layout,
open_nfu_protocol.py:107-114). -/
structure HeartbeatStatus where
  nfu_state : String
  lc_software_state : String
  lmc_software_state : List Nat
  bus_voltage : ℚ
  nfu_ms_per_CMDDOM : ℚ
  nfu_ms_per_ACTUATEMPL : ℚ
deriving DecidableEq

/-- `parse_heartbeat` (open_nfu_protocol.py:121-164), relative to an abstract
binary32 little-endian decoder `f32dec` (numpy's `.view(np.float32)`).
A payload shorter than 21 bytes raises `IndexError` in the source (`none`
here).  The `try/except ValueError` pairs around the enum lookups become the
`match`es below.  Note the source formats `nfu_state_id` — not
`lc_state_id` — into the `LCSTATE_ENUM_ERROR` string (line 155); the model
reproduces that faithfully. -/
def parse_heartbeat (f32dec : List Nat → ℚ) (msg_bytes : List Nat) :
    Option HeartbeatStatus :=
  if 21 ≤ msg_bytes.length then
    let nfu_state_id := msg_bytes.getD 0 0
    let lc_state_id := msg_bytes.getD 1 0
    some
      { nfu_state :=
          match bootstateNames[nfu_state_id]? with
          | some s => s
          | none => "NFUSTATE_ENUM_ERROR=" ++ toString nfu_state_id
        lc_software_state :=
          match lcSwStateName lc_state_id with
          | some s => s
          | none => "LCSTATE_ENUM_ERROR=" ++ toString nfu_state_id
        lmc_software_state := (msg_bytes.drop 2).take 7
        bus_voltage := f32dec ((msg_bytes.drop 9).take 4)
        nfu_ms_per_CMDDOM := f32dec ((msg_bytes.drop 13).take 4)
        nfu_ms_per_ACTUATEMPL := f32dec ((msg_bytes.drop 17).take 4) }
  else none

end MiniVIE

/-- C5: heartbeat decoding is total — it returns a status record for all
values of the `nfu_state` and `lc_software_state` bytes — and an unmapped
`nfu_state` byte decodes to an explicit error string carrying that byte's
value.  However, for an unmapped `lc_software_state` byte the source formats
the *nfu* byte into the error string (open_nfu_protocol.py:155), so the
LC field does not carry the unrecognized byte: at `nfu_state = 0`,
`lc_software_state = 10` the decoded LC field is `"LCSTATE_ENUM_ERROR=0"`,
not `"LCSTATE_ENUM_ERROR=10"`. -/
theorem C5_heartbeat_enum_error_decoding
    (f32dec : List Nat → ℚ) (nfu lc : Nat) :
    (MiniVIE.parse_heartbeat f32dec ([nfu, lc] ++ List.replicate 19 0)).isSome
      = true ∧
    (MiniVIE.bootstateNames[nfu]? = none →
      (MiniVIE.parse_heartbeat f32dec
          ([nfu, lc] ++ List.replicate 19 0)).map
        MiniVIE.HeartbeatStatus.nfu_state
        = some ("NFUSTATE_ENUM_ERROR=" ++ toString nfu)) ∧
    (MiniVIE.parse_heartbeat (fun _ => 0) ([0, 10] ++ List.replicate 19 0)).map
        MiniVIE.HeartbeatStatus.lc_software_state
      = some "LCSTATE_ENUM_ERROR=0" := by
  refine ⟨?_, ?_, ?_⟩
  · simp [MiniVIE.parse_heartbeat]
  · intro h
    simp [MiniVIE.parse_heartbeat, h]
  · rfl

/-- Closed witness for `C5_heartbeat_enum_error_decoding` at the unmapped
`nfu_state = 255`. -/
theorem C5_heartbeat_enum_error_decoding_witness :
    (MiniVIE.parse_heartbeat (fun _ => 0) ([255, 0] ++ List.replicate 19 0)).map
        MiniVIE.HeartbeatStatus.nfu_state
      = some "NFUSTATE_ENUM_ERROR=255" := by
  exact (C5_heartbeat_enum_error_decoding (fun _ => 0) 255 0).2.1 (by decide)

namespace MiniVIE

/-! ## Bus-voltage shutdown monitor
(`NfuSink.parse_messages`, open_nfu/open_nfu_sink.py:217-256). -/

/-- Limb-controller commands the sink can issue while routing a message. -/
inductive SinkEffect
  | softReset
  | shutdown
deriving DecidableEq

/-- `deque(maxlen=15).append(v)` (open_nfu_sink.py:27,242): keep the 15 most
recent samples, discarding from the oldest end. -/
def battery_append (samples : List ℚ) (v : ℚ) : List ℚ :=
  (samples ++ [v]).drop ((samples ++ [v]).length - 15)

/-- `NfuSink.parse_messages` (open_nfu/open_nfu_sink.py:217-256).  Returns the
updated battery deque together with the ordered list of limb commands the
routing step issued; `none` models an exception escaping the handler (the
heartbeat payload too short for `parse_heartbeat`).  Messages shorter than
3 bytes are logged and dropped; percept messages (id 200) and unknown ids
issue no limb commands.  On a heartbeat (id 203) the decoded `bus_voltage`
is appended to the deque and, when the deque's average is nonzero and below
`shutdown_voltage`, the sink calls `set_limb_soft_reset()` and then
`shutdown()`. -/
def parse_messages (f32dec : List Nat → ℚ) (shutdown_voltage : ℚ)
    (samples : List ℚ) (data : List Nat) :
    Option (List ℚ × List SinkEffect) :=
  if data.length < 3 then some (samples, [])
  else if data.getD 2 0 = 203 then
    match parse_heartbeat f32dec (data.drop 3) with
    | none => none
    | some st =>
      let s := battery_append samples st.bus_voltage
      let v_battery := s.sum / (s.length : ℚ)
      if v_battery ≠ 0 ∧ v_battery < shutdown_voltage then
        some (s, [.softReset, .shutdown])
      else some (s, [])
  else some (samples, [])

lemma battery_append_ne_nil (samples : List ℚ) (v : ℚ) :
    battery_append samples v ≠ [] := by
  unfold battery_append
  intro h
  have hlen := congrArg List.length h
  simp at hlen
  omega

end MiniVIE

/-- C3 (amended): a heartbeat-processing step issues the shutdown sequence
exactly when the message routes as a heartbeat and the moving average of the
updated bus-voltage deque (the 15 most recent samples) is nonzero and below
the configured shutdown threshold; the sequence is a limb soft-reset followed
by controller shutdown, and no other message processing issues a shutdown. -/
theorem C3_voltage_shutdown_condition (f32dec : List Nat → ℚ)
    (shutdown_voltage : ℚ) (samples : List ℚ) (data : List Nat)
    (s : List ℚ) (effects : List MiniVIE.SinkEffect)
    (h : MiniVIE.parse_messages f32dec shutdown_voltage samples data
          = some (s, effects)) :
    (MiniVIE.SinkEffect.shutdown ∈ effects ↔
      (3 ≤ data.length ∧ data.getD 2 0 = 203 ∧
        s.sum / (s.length : ℚ) ≠ 0 ∧
        s.sum / (s.length : ℚ) < shutdown_voltage)) ∧
    (MiniVIE.SinkEffect.shutdown ∈ effects →
      effects = [MiniVIE.SinkEffect.softReset, MiniVIE.SinkEffect.shutdown]) := by
  unfold MiniVIE.parse_messages at h
  split at h
  · rename_i hshort
    cases h
    refine ⟨?_, by simp⟩
    simp only [List.not_mem_nil, false_iff]
    intro hc
    exact absurd hc.1 (by omega)
  · rename_i hshort
    split at h
    · rename_i hid
      cases hhb : MiniVIE.parse_heartbeat f32dec (data.drop 3) with
      | none => rw [hhb] at h; cases h
      | some st =>
        rw [hhb] at h
        simp only at h
        split at h
        · rename_i hcond
          cases h
          refine ⟨?_, fun _ => rfl⟩
          constructor
          · intro _
            exact ⟨by omega, hid, hcond.1, hcond.2⟩
          · intro _
            simp
        · rename_i hcond
          cases h
          refine ⟨?_, by simp⟩
          simp only [List.not_mem_nil, false_iff]
          intro hc
          exact hcond ⟨hc.2.2.1, hc.2.2.2⟩
    · rename_i hid
      cases h
      refine ⟨?_, by simp⟩
      simp only [List.not_mem_nil, false_iff]
      intro hc
      exact hid hc.2.1

/-- Closed witness for `C3_voltage_shutdown_condition`: a heartbeat whose
decoded voltage 5 V drags the singleton deque average below the 19 V
threshold triggers soft-reset then shutdown. -/
theorem C3_voltage_shutdown_condition_witness :
    MiniVIE.SinkEffect.shutdown ∈
      [MiniVIE.SinkEffect.softReset, MiniVIE.SinkEffect.shutdown] := by
  have h : MiniVIE.parse_messages (fun _ => 5) 19 []
      ([0, 0, 203] ++ [0, 0] ++ List.replicate 19 0)
      = some ([5], [MiniVIE.SinkEffect.softReset, MiniVIE.SinkEffect.shutdown]) := by
    have hpv : MiniVIE.parse_heartbeat (fun _ => (5 : ℚ))
        (([0, 0, 203] ++ [0, 0] ++ List.replicate 19 0).drop 3)
        = some { nfu_state := "BOOTSTATE_UNKNOWN",
                 lc_software_state := "SWSTATE_INIT",
                 lmc_software_state := List.replicate 7 0,
                 bus_voltage := 5, nfu_ms_per_CMDDOM := 5,
                 nfu_ms_per_ACTUATEMPL := 5 } := by
      rfl
    unfold MiniVIE.parse_messages
    rw [if_neg (by norm_num), if_pos (by rfl), hpv]
    have hb : MiniVIE.battery_append [] 5 = [5] := by rfl
    simp only [hb]
    rw [if_pos (by norm_num)]
  exact ((C3_voltage_shutdown_condition (fun _ => 5) 19 []
      ([0, 0, 203] ++ [0, 0] ++ List.replicate 19 0) [5]
      [MiniVIE.SinkEffect.softReset, MiniVIE.SinkEffect.shutdown] h).1).mpr
    (by refine ⟨by decide, by decide, ?_, ?_⟩ <;> norm_num)

/-- C3 counterexample to the claim as stated: with shutdown threshold 19 V, a
decoded heartbeat reporting 0.0 V (hand disconnected) makes the deque average
0, which is below the threshold, yet the routing step issues no soft-reset
and no shutdown — the source additionally requires the average to be nonzero
(open_nfu_sink.py:248). -/
theorem C3_zero_average_no_shutdown :
    MiniVIE.parse_messages (fun _ => 0) 19 []
        ([0, 0, 203] ++ [0, 0] ++ List.replicate 19 0)
      = some ([0], []) ∧
    ((0 : ℚ) / ((1 : Nat) : ℚ) < 19) := by
  constructor
  · have hpv : MiniVIE.parse_heartbeat (fun _ => (0 : ℚ))
        (([0, 0, 203] ++ [0, 0] ++ List.replicate 19 0).drop 3)
        = some { nfu_state := "BOOTSTATE_UNKNOWN",
                 lc_software_state := "SWSTATE_INIT",
                 lmc_software_state := List.replicate 7 0,
                 bus_voltage := 0, nfu_ms_per_CMDDOM := 0,
                 nfu_ms_per_ACTUATEMPL := 0 } := by
      rfl
    unfold MiniVIE.parse_messages
    rw [if_neg (by norm_num), if_pos (by rfl), hpv]
    have hb : MiniVIE.battery_append [] 0 = [0] := by rfl
    simp only [hb]
    rw [if_neg (by norm_num)]
  · norm_num

namespace MiniVIE

/-! ## MotionTester cancellation (`pattern_rec/assessment.py`).

`MotionTester.command_string` reacts to `Cmd:StopMotionTester...` by calling
`cancel_task()` (assessment.py:116-119), which cancels the asyncio task
running `run_assessment`/`start_assessment`.  A `CancelledError` is delivered
at the `await` where the coroutine is suspended and propagates
(assessment.py:142-143), so exactly the externally observable calls made
before that `await` have happened.  We model `start_assessment`
(assessment.py:145-196) as the ordered trace of those calls. -/

/-- Externally observable calls of `MotionTester.start_assessment`. -/
inductive MtEvent
  | guiProgress
  | pauseSet (flag : Bool)
  | statusMsg
  | awaitPoint
  | saveResults
deriving DecidableEq

/-- Modelled from the spec: `self.vie.pause('All', flag)` — the Orchestrator
pause setter called by the assessment engines is implemented outside the
sources under `src/`; per the spec ("Holdout: normal control is paused
(`Orchestrator.pause = true`)"), the call sets the pause flag to `flag`.
This folds those calls over an event trace to obtain the final flag. -/
def pause_flag_after (init : Bool) (trace : List MtEvent) : Bool :=
  trace.foldl (fun flag e => match e with | .pauseSet b => b | _ => flag) init

/-- Trace of a `start_assessment` run that completes normally
(assessment.py:145-196): `update_gui_progress(0, 1)`, `vie.pause('All',
True)`, `send_status('Holdout')`, then the repetition/class loop `body` (its
awaits, status and GUI updates), then the no-motion image message,
`save_results()`, the completion status, and `vie.pause('All', False)`. -/
def mt_run_trace (body : List MtEvent) : List MtEvent :=
  [.guiProgress, .pauseSet true, .statusMsg] ++ body
    ++ [.statusMsg, .saveResults, .statusMsg, .pauseSet false]

/-- Cancellation delivered at the `await` sitting at index `k` of the run
trace: exactly the events before it have executed. -/
def mt_cancelled_trace (body : List MtEvent) (k : Nat) : List MtEvent :=
  (mt_run_trace body).take k

/-- The repetition/class loop of `start_assessment` (assessment.py:169-185,
via `assess_class`, assessment.py:197-262) only awaits, sends status and GUI
messages, and mutates the tester's internal data lists: it neither saves
results nor touches the pause flag. -/
def mtLoopEvent (e : MtEvent) : Prop :=
  e = .awaitPoint ∨ e = .statusMsg ∨ e = .guiProgress

lemma pause_flag_after_loop (init : Bool) (trace : List MtEvent)
    (h : ∀ e ∈ trace, mtLoopEvent e) :
    pause_flag_after init trace = init := by
  induction trace with
  | nil => rfl
  | cons e t ih =>
    have he := h e (by simp)
    have ht : ∀ x ∈ t, mtLoopEvent x := fun x hx => h x (by simp [hx])
    rcases he with h1 | h1 | h1 <;> subst h1 <;>
      simpa [pause_flag_after] using ih ht

end MiniVIE

/-- C4 (code behavior at the failing input): cancelling the MotionTester
task at any `await` of an in-progress assessment leaves a trace with no
`save_results` call — no results file is written — but the Orchestrator
pause flag is left SET: `vie.pause('All', False)` (assessment.py:195) is
never reached once `CancelledError` propagates, contradicting the claim
that the limb ends up unpaused. -/
theorem C4_cancel_skips_save_but_leaves_paused
    (body : List MiniVIE.MtEvent) (k : Nat)
    (hbody : ∀ e ∈ body, MiniVIE.mtLoopEvent e)
    (hk : (MiniVIE.mt_run_trace body)[k]? = some .awaitPoint) :
    MiniVIE.MtEvent.saveResults ∉ MiniVIE.mt_cancelled_trace body k ∧
    MiniVIE.pause_flag_after false (MiniVIE.mt_cancelled_trace body k)
      = true := by
  -- The await at index `k` must lie inside the loop body: positions 0-2 and
  -- the four trailing events are not awaits.
  have hk3 : 3 ≤ k := by
    rcases k with - | k
    · simp [MiniVIE.mt_run_trace] at hk
    rcases k with - | k
    · simp [MiniVIE.mt_run_trace] at hk
    rcases k with - | k
    · simp [MiniVIE.mt_run_trace] at hk
    omega
  have hkbody : k - 3 < body.length := by
    by_contra hge
    push_neg at hge
    have hidx : (MiniVIE.mt_run_trace body)[k]? =
        ([MiniVIE.MtEvent.statusMsg, .saveResults, .statusMsg,
          .pauseSet false] : List MiniVIE.MtEvent)[k - 3 - body.length]? := by
      unfold MiniVIE.mt_run_trace
      rw [List.getElem?_append_right (by simp; omega)]
      congr 1
      simp
      omega
    rw [hidx] at hk
    rcases hsplit : k - 3 - body.length with - | n
    · rw [hsplit] at hk; simp at hk
    rcases n with - | n
    · rw [hsplit] at hk; simp at hk
    rcases n with - | n
    · rw [hsplit] at hk; simp at hk
    rcases n with - | n
    · rw [hsplit] at hk; simp at hk
    · rw [hsplit] at hk; simp at hk
  -- Hence the executed prefix is the three opening events plus part of the body.
  have htake : MiniVIE.mt_cancelled_trace body k =
      [MiniVIE.MtEvent.guiProgress, .pauseSet true, .statusMsg]
        ++ body.take (k - 3) := by
    unfold MiniVIE.mt_cancelled_trace MiniVIE.mt_run_trace
    rw [List.take_append_eq_append_take, List.take_append_eq_append_take]
    have h0 : k - ([MiniVIE.MtEvent.guiProgress, .pauseSet true, .statusMsg]
        ++ body).length = 0 := by
      simp
      omega
    rw [h0, List.take_zero, List.append_nil,
      List.take_of_length_le (l := [MiniVIE.MtEvent.guiProgress,
        .pauseSet true, .statusMsg]) (by simp; omega)]
    simp
  constructor
  · rw [htake]
    intro hmem
    simp only [List.mem_append, List.mem_cons, List.not_mem_nil] at hmem
    rcases hmem with (h1 | h1 | h1 | h1) | h1
    · cases h1
    · cases h1
    · cases h1
    · cases h1
    · have := hbody _ (List.mem_of_mem_take h1)
      rcases this with h2 | h2 | h2 <;> cases h2
  · rw [htake]
    unfold MiniVIE.pause_flag_after
    rw [List.foldl_append]
    exact MiniVIE.pause_flag_after_loop true (body.take (k - 3))
      (fun e he => hbody e (List.mem_of_mem_take he))

/-- Closed witness for `C4_cancel_skips_save_but_leaves_paused`: a run whose
loop is a single await, cancelled at that await (index 3). -/
theorem C4_cancel_skips_save_but_leaves_paused_witness :
    MiniVIE.MtEvent.saveResults ∉
      MiniVIE.mt_cancelled_trace [MiniVIE.MtEvent.awaitPoint] 3 ∧
    MiniVIE.pause_flag_after false
      (MiniVIE.mt_cancelled_trace [MiniVIE.MtEvent.awaitPoint] 3) = true := by
  exact C4_cancel_skips_save_but_leaves_paused [MiniVIE.MtEvent.awaitPoint] 3
    (by intro e he; simp at he; subst he; exact Or.inl rfl) (by rfl)

namespace MiniVIE

/-! ## Assessment command strings
(`MotionTester.command_string`, assessment.py:84-121;
`TargetAchievementControl.command_string`, assessment.py:384-438).
Python strings are modelled as `List Char`; `str.split(sep)` for a one-char
separator and the `in` substring test are implemented structurally below. -/

/-- Python `value.split(sep)` for a single-character separator: every
occurrence splits, empty pieces are kept, `''.split(sep) == ['']`. -/
def split_on (sep : Char) : List Char → List (List Char)
  | [] => [[]]
  | c :: rest =>
    match split_on sep rest with
    | [] => [[c]]
    | h :: t => if c = sep then [] :: h :: t else (c :: h) :: t

/-- Python `sub in s` on strings. -/
def str_in (sub s : List Char) : Bool :=
  s.tails.any fun t => sub.isPrefixOf t

/-- Python 3 `round` to an integer: ties go to the nearest even integer
(banker's rounding), otherwise to the nearest integer. -/
def python_round (q : ℚ) : ℤ :=
  if 2 * q = 2 * (⌊q⌋ : ℚ) + 1 then
    (if ⌊q⌋ % 2 = 0 then ⌊q⌋ else ⌊q⌋ + 1)
  else round q

/-- Outcome of `MotionTester.command_string`. -/
inductive MtCommand
  | invalidIgnored
  | otherIgnored
  | unknownIgnored
  | startMotionTester (repetitions : ℤ) (timeout : ℚ) (max_correct : ℤ)
  | stopMotionTester
deriving DecidableEq

/-- `MotionTester.command_string` (assessment.py:84-121), relative to an
abstract `float()` literal parser `pf` (`none` models `ValueError`).
A value without exactly one `:` is logged and ignored
(`invalidIgnored`); a `cmd_type` other than `Cmd` falls through silently
(`otherIgnored`); inside `Cmd`, `'StartMotionTester' in cmd_data` parses
`int(round(float(split('-')[1])))`, `float(split('-')[2])` and
`int(round(float(split('-')[3])))` — a missing field raises `IndexError`
and an unparsable one `ValueError`; `'StopMotionTester' in cmd_data`
cancels; anything else is logged (`unknownIgnored`). -/
def MotionTester_command_string (pf : List Char → Option ℚ)
    (value : List Char) : Except String MtCommand :=
  let parsed := split_on ':' value
  if parsed.length ≠ 2 then .ok .invalidIgnored
  else
    let cmd_type := parsed.getD 0 []
    let cmd_data := parsed.getD 1 []
    if cmd_type = "Cmd".toList then
      if str_in "StartMotionTester".toList cmd_data then
        match (split_on '-' cmd_data)[1]? with
        | none => .error "IndexError"
        | some f1 =>
          match pf f1 with
          | none => .error "ValueError"
          | some repetitions =>
            match (split_on '-' cmd_data)[2]? with
            | none => .error "IndexError"
            | some f2 =>
              match pf f2 with
              | none => .error "ValueError"
              | some timeout =>
                match (split_on '-' cmd_data)[3]? with
                | none => .error "IndexError"
                | some f3 =>
                  match pf f3 with
                  | none => .error "ValueError"
                  | some mc =>
                    .ok (.startMotionTester (python_round repetitions)
                      timeout (python_round mc))
      else if str_in "StopMotionTester".toList cmd_data then
        .ok .stopMotionTester
      else .ok .unknownIgnored
    else .ok .otherIgnored

/-- Outcome of `TargetAchievementControl.command_string`. -/
inductive TacCommand
  | invalidIgnored
  | otherIgnored
  | unknownIgnored
  | startTac (assessment_type : String) (condition : ℤ) (repetitions : ℤ)
      (timeout dwell_time target_error_degree target_error_percent : ℚ)
  | stopTac
deriving DecidableEq

/-- Field parsing shared by the `StartTAC1`/`StartTAC3` branches of
`TargetAchievementControl.command_string` (assessment.py:405-431): fields
1-5 of the `-`-split payload are `int(round(float(·)))` repetitions, then
`float(·)` timeout, dwell time, degree error and percent error. -/
def tac_parse_fields (pf : List Char → Option ℚ) (cmd_data : List Char)
    (assessment_type : String) (condition : ℤ) : Except String TacCommand :=
  match (split_on '-' cmd_data)[1]? with
  | none => .error "IndexError"
  | some f1 =>
    match pf f1 with
    | none => .error "ValueError"
    | some repetitions =>
      match (split_on '-' cmd_data)[2]? with
      | none => .error "IndexError"
      | some f2 =>
        match pf f2 with
        | none => .error "ValueError"
        | some timeout =>
          match (split_on '-' cmd_data)[3]? with
          | none => .error "IndexError"
          | some f3 =>
            match pf f3 with
            | none => .error "ValueError"
            | some dwell =>
              match (split_on '-' cmd_data)[4]? with
              | none => .error "IndexError"
              | some f4 =>
                match pf f4 with
                | none => .error "ValueError"
                | some errdeg =>
                  match (split_on '-' cmd_data)[5]? with
                  | none => .error "IndexError"
                  | some f5 =>
                    match pf f5 with
                    | none => .error "ValueError"
                    | some errpct =>
                      .ok (.startTac assessment_type condition
                        (python_round repetitions) timeout dwell errdeg errpct)

/-- `TargetAchievementControl.command_string` (assessment.py:384-438). -/
def TAC_command_string (pf : List Char → Option ℚ)
    (value : List Char) : Except String TacCommand :=
  let parsed := split_on ':' value
  if parsed.length ≠ 2 then .ok .invalidIgnored
  else
    let cmd_type := parsed.getD 0 []
    let cmd_data := parsed.getD 1 []
    if cmd_type = "Cmd".toList then
      if str_in "StartTAC1".toList cmd_data then
        tac_parse_fields pf cmd_data "TAC1" 1
      else if str_in "StartTAC3".toList cmd_data then
        tac_parse_fields pf cmd_data "TAC3" 3
      else if str_in "StopTAC".toList cmd_data then
        .ok .stopTac
      else .ok .unknownIgnored
    else .ok .otherIgnored

end MiniVIE

/-- C8 (amended): a command string lacking exactly one `:` separator is
logged and ignored by both assessment handlers — the call returns normally
and starts nothing; but a Start command whose payload has too few
`-`-separated fields is NOT ignored: the field access raises `IndexError`
(and an unparsable field raises `ValueError`), so only the missing-`:` case
is silently dropped.  No assessment starts in either case. -/
theorem C8_malformed_command_handling (pf : List Char → Option ℚ)
    (value d : List Char) :
    ((MiniVIE.split_on ':' value).length ≠ 2 →
      MiniVIE.MotionTester_command_string pf value = .ok .invalidIgnored ∧
      MiniVIE.TAC_command_string pf value = .ok .invalidIgnored) ∧
    (MiniVIE.split_on ':' value = ["Cmd".toList, d] →
      (∀ s, (pf s).isSome) →
      MiniVIE.str_in "StartMotionTester".toList d = true →
      (MiniVIE.split_on '-' d).length ≤ 3 →
      MiniVIE.MotionTester_command_string pf value = .error "IndexError") ∧
    (MiniVIE.split_on ':' value = ["Cmd".toList, d] →
      (∀ s, (pf s).isSome) →
      MiniVIE.str_in "StartTAC1".toList d = true →
      (MiniVIE.split_on '-' d).length ≤ 5 →
      MiniVIE.TAC_command_string pf value = .error "IndexError") := by
  refine ⟨?_, ?_, ?_⟩
  · intro h
    constructor
    · unfold MiniVIE.MotionTester_command_string
      rw [if_pos h]
    · unfold MiniVIE.TAC_command_string
      rw [if_pos h]
  · intro h2 hpf hin hlen
    unfold MiniVIE.MotionTester_command_string
    simp only [h2, List.getD_cons_zero, List.getD_cons_succ,
      List.length_cons, List.length_nil]
    rw [if_neg (by omega)]
    rw [if_pos trivial, if_pos hin]
    cases hs1 : (MiniVIE.split_on '-' d)[1]? with
    | none => rfl
    | some f1 =>
      dsimp only
      obtain ⟨q1, hq1⟩ := Option.isSome_iff_exists.mp (hpf f1)
      rw [hq1]
      dsimp only
      cases hs2 : (MiniVIE.split_on '-' d)[2]? with
      | none => rfl
      | some f2 =>
        dsimp only
        obtain ⟨q2, hq2⟩ := Option.isSome_iff_exists.mp (hpf f2)
        rw [hq2]
        dsimp only
        rw [List.getElem?_eq_none (by omega)]
  · intro h2 hpf hin hlen
    unfold MiniVIE.TAC_command_string
    simp only [h2, List.getD_cons_zero, List.getD_cons_succ,
      List.length_cons, List.length_nil]
    rw [if_neg (by omega)]
    rw [if_pos trivial, if_pos hin]
    unfold MiniVIE.tac_parse_fields
    cases hs1 : (MiniVIE.split_on '-' d)[1]? with
    | none => rfl
    | some f1 =>
      dsimp only
      obtain ⟨q1, hq1⟩ := Option.isSome_iff_exists.mp (hpf f1)
      rw [hq1]
      dsimp only
      cases hs2 : (MiniVIE.split_on '-' d)[2]? with
      | none => rfl
      | some f2 =>
        dsimp only
        obtain ⟨q2, hq2⟩ := Option.isSome_iff_exists.mp (hpf f2)
        rw [hq2]
        dsimp only
        cases hs3 : (MiniVIE.split_on '-' d)[3]? with
        | none => rfl
        | some f3 =>
          dsimp only
          obtain ⟨q3, hq3⟩ := Option.isSome_iff_exists.mp (hpf f3)
          rw [hq3]
          dsimp only
          cases hs4 : (MiniVIE.split_on '-' d)[4]? with
          | none => rfl
          | some f4 =>
            dsimp only
            obtain ⟨q4, hq4⟩ := Option.isSome_iff_exists.mp (hpf f4)
            rw [hq4]
            dsimp only
            rw [List.getElem?_eq_none (by omega)]

/-- C8 counterexample to the claim as stated: a well-formed-looking
`StartMotionTester` command with too few `-`-separated fields does not
return normally — `cmd_data.split('-')[2]` raises `IndexError`
(assessment.py:108) instead of being logged and ignored. -/
theorem C8_wrong_field_count_raises :
    MiniVIE.MotionTester_command_string (fun _ => some 1)
      "Cmd:StartMotionTester-3".toList = .error "IndexError" := by
  rfl

/-- Closed witness for `C8_malformed_command_handling`: a string without `:`
is ignored by both handlers, and a `StartTAC1` command with only two of the
five required fields raises `IndexError`. -/
theorem C8_malformed_command_handling_witness :
    MiniVIE.MotionTester_command_string (fun _ => some 1) "garbage".toList
      = .ok .invalidIgnored ∧
    MiniVIE.TAC_command_string (fun _ => some 1) "Cmd:StartTAC1-2-45".toList
      = .error "IndexError" := by
  constructor
  · exact ((C8_malformed_command_handling (fun _ => some 1) "garbage".toList
      []).1 (by decide)).1
  · exact (C8_malformed_command_handling (fun _ => some 1)
      "Cmd:StartTAC1-2-45".toList "StartTAC1-2-45".toList).2.2
      (by decide) (fun s => rfl) (by decide) (by decide)

namespace MiniVIE

/-! ## Target-achievement tracking and target selection
(`TargetAchievementControl.assess_joint`, assessment.py:571-748). -/

/-- Per-axis data one tracking poll inspects (assessment.py:656-681):
the current position (degrees for joints, percent for grasps), the target,
the allowed error, and — for grasps — whether the active grasp id matches
the assessed one (assessment.py:672-676; always `true` for joints). -/
structure TacAxis where
  position : ℚ
  target_position : ℚ
  target_error : ℚ
  graspOk : Bool
deriving DecidableEq

/-- assessment.py:669-678: the axis is flagged in-target iff its position is
strictly inside `(target_position - target_error, target_position +
target_error)` and, for a grasp, the active grasp matches. -/
def joint_in_target (a : TacAxis) : Bool :=
  (decide (a.position < a.target_position + a.target_error) &&
    decide (a.position > a.target_position - a.target_error)) && a.graspOk

/-- One tracking poll taken after the start sequence
(assessment.py:727-736): recompute every axis's in-target flag, reset the
dwell accumulator to 0 if any flag is false and increment it by `dt`
otherwise, then set `move_complete` when the accumulator has reached
`dwell_time`.  Returns `(time_in_target', move_complete)`. -/
def tac_poll (axes : List TacAxis) (dt dwell_time time_in_target : ℚ) :
    ℚ × Bool :=
  let jit := axes.map joint_in_target
  let t := if false ∈ jit then 0 else time_in_target + dt
  (t, decide (dwell_time ≤ t))

end MiniVIE

/-- C6: at every poll after the start sequence, if some tracked axis lies
outside its allowed error band `target_position ± target_error`, the dwell
accumulator `time_in_target` is exactly 0 after that poll, whatever its
previously accumulated value; and the poll reports the trial complete
exactly when the accumulator (built up in `dt` increments) has reached the
configured dwell time. -/
theorem C6_dwell_reset_and_completion (axes : List MiniVIE.TacAxis)
    (dt dwell_time time_in_target : ℚ) (a : MiniVIE.TacAxis)
    (ha : a ∈ axes)
    (hout : ¬(a.position < a.target_position + a.target_error ∧
              a.position > a.target_position - a.target_error)) :
    (MiniVIE.tac_poll axes dt dwell_time time_in_target).1 = 0 ∧
    ((MiniVIE.tac_poll axes dt dwell_time time_in_target).2 = true ↔
      dwell_time ≤ (MiniVIE.tac_poll axes dt dwell_time time_in_target).1) := by
  have hfalse : MiniVIE.joint_in_target a = false := by
    unfold MiniVIE.joint_in_target
    by_cases h1 : a.position < a.target_position + a.target_error
    · by_cases h2 : a.position > a.target_position - a.target_error
      · exact absurd ⟨h1, h2⟩ hout
      · simp [h2]
    · simp [h1]
  have hmem : false ∈ axes.map MiniVIE.joint_in_target :=
    List.mem_map.mpr ⟨a, ha, hfalse⟩
  constructor
  · unfold MiniVIE.tac_poll
    simp only [if_pos hmem]
  · unfold MiniVIE.tac_poll
    simp only [decide_eq_true_eq]

/-- Closed witness for `C6_dwell_reset_and_completion`: an axis at 50° with
target 0° ± 5° resets a previously accumulated 1.8 s dwell to 0, and the
poll does not complete the 2 s dwell requirement. -/
theorem C6_dwell_reset_and_completion_witness :
    (MiniVIE.tac_poll [⟨50, 0, 5, true⟩] (2/10) 2 (18/10)).1 = 0 ∧
    ((MiniVIE.tac_poll [⟨50, 0, 5, true⟩] (2/10) 2 (18/10)).2 = true ↔
      (2 : ℚ) ≤ (MiniVIE.tac_poll [⟨50, 0, 5, true⟩] (2/10) 2 (18/10)).1) := by
  exact C6_dwell_reset_and_completion [⟨50, 0, 5, true⟩] (2/10) 2 (18/10)
    ⟨50, 0, 5, true⟩ (by simp) (by norm_num)

namespace MiniVIE

/-- The three admissibility conditions on a candidate target position
(assessment.py:598-600 for grasps, 619-621 for joints): at least a quarter
of the full range away from the current position, and strictly more than
the allowed error away from either limit. -/
def target_conditions (current lower upper target_error t : ℚ) : Prop :=
  |current - t| > (1/4) * (upper - lower) ∧
  |t - upper| > target_error ∧
  |t - lower| > target_error

instance (current lower upper target_error t : ℚ) :
    Decidable (target_conditions current lower upper target_error t) := by
  unfold target_conditions
  infer_instance

/-- The target-selection loop (assessment.py:596-603 and 616-624): each
iteration draws `float(random.randint(round(lower), round(upper)))` and
breaks when the three conditions hold or more than 5 seconds have elapsed
since `time_begin`.  The iterations are modelled as a stream of
`(candidate, elapsed)` samples — the candidate drawn and the value of
`time.time() - time_begin` at that iteration's break test; `none` means the
modelled sample stream was exhausted before the loop broke.  The returned
flag records whether the 5-second fallback, not the conditions, accepted
the target. -/
def select_target (current lower upper target_error : ℚ) :
    List (ℚ × ℚ) → Option (ℚ × Bool)
  | [] => none
  | (t, elapsed) :: rest =>
    if target_conditions current lower upper target_error t then
      some (t, false)
    else if elapsed > 5 then some (t, true)
    else select_target current lower upper target_error rest

end MiniVIE

/-- C7: a target accepted other than through the 5-second fallback satisfies
`|target - current| ≥ 0.25*(upper - lower)` (the code guarantees strict
inequality), `|target - upper| > error` and `|target - lower| > error`; and
the selection loop terminates: it accepts some target as soon as the sample
stream reaches an iteration whose elapsed time exceeds 5 seconds (wall time
strictly increases, so such an iteration is always reached). -/
theorem C7_target_selection (current lower upper target_error : ℚ)
    (samples : List (ℚ × ℚ)) :
    (∀ t, MiniVIE.select_target current lower upper target_error samples
        = some (t, false) →
      |t - current| ≥ (1/4) * (upper - lower) ∧
      |t - upper| > target_error ∧ |t - lower| > target_error) ∧
    ((∃ p ∈ samples, p.2 > 5) →
      (MiniVIE.select_target current lower upper target_error
        samples).isSome = true) := by
  induction samples with
  | nil =>
    constructor
    · intro t h
      simp [MiniVIE.select_target] at h
    · intro h
      obtain ⟨p, hp, -⟩ := h
      simp at hp
  | cons s rest ih =>
    obtain ⟨t0, e0⟩ := s
    constructor
    · intro t h
      unfold MiniVIE.select_target at h
      split at h
      · rename_i hc
        cases h
        refine ⟨?_, hc.2.1, hc.2.2⟩
        rw [abs_sub_comm]
        exact le_of_lt hc.1
      · split at h
        · cases h
        · exact ih.1 t h
    · intro h
      unfold MiniVIE.select_target
      split
      · simp
      · split
        · simp
        · rename_i hc he
          refine ih.2 ?_
          obtain ⟨p, hp, hp5⟩ := h
          rcases List.mem_cons.mp hp with h1 | h1
          · subst h1
            exact absurd hp5 he
          · exact ⟨p, h1, hp5⟩

/-- Closed witness for `C7_target_selection`: with the limb at 0° in range
[-30°, 150°] and 5° error, the candidate 90° satisfies all three conditions
and the loop accepts it without the fallback; termination also follows for
a stream whose second iteration passes the 5 s bound. -/
theorem C7_target_selection_witness :
    (|(90 : ℚ) - 0| ≥ (1/4) * (150 - (-30)) ∧
      |(90 : ℚ) - 150| > 5 ∧ |(90 : ℚ) - (-30)| > 5) ∧
    (MiniVIE.select_target 0 (-30) 150 5 [(-29, 1), (-29, 6)]).isSome
      = true := by
  constructor
  · exact (C7_target_selection 0 (-30) 150 5 [(90, 1)]).1 90 (by
      unfold MiniVIE.select_target
      rw [if_pos (by unfold MiniVIE.target_conditions; norm_num)])
  · exact (C7_target_selection 0 (-30) 150 5 [(-29, 1), (-29, 6)]).2
      ⟨(-29, 6), ⟨by simp, by norm_num⟩⟩

namespace MiniVIE

/-! ## Scenario orchestrator (`scenarios/__init__.py`). -/

/-- Decision metadata returned by `controls.plant.class_map` for a motion
class: whether it is a grasp, the optional new grasp id, the joint id and
the motion direction (scenarios/__init__.py:172-193). -/
structure ClassInfo where
  isGrasp : Bool
  graspId : Option String
  jointId : Nat
  direction : ℚ

/-- Calls `Scenario.update` makes on its Plant and DataSink collaborators. -/
inductive PlantCall
  | newStep
  | setGraspId (g : String)
  | setGraspVelocity (v : ℚ)
  | setJointVelocity (joint : Nat) (v : ℚ)
  | plantUpdate
  | sendJointAngles
deriving DecidableEq

/-- `Scenario.__init__` (scenarios/__init__.py:25): `self.__gain_value = 1.0`. -/
def scenario_init_gain_value : ℚ := 1

/-- `Scenario.__init__` (scenarios/__init__.py:26):
`self.__hand_gain_value = 1.0`. -/
def scenario_init_hand_gain_value : ℚ := 1

/-- `Scenario.gain` (scenarios/__init__.py:44-47): multiply the stored gain
by `factor`, clamping below at 0.1. -/
def gain (gain_value factor : ℚ) : ℚ :=
  if gain_value * factor < 1/10 then 1/10 else gain_value * factor

/-- `Scenario.hand_gain` (scenarios/__init__.py:49-52): same clamp for the
hand gain. -/
def hand_gain (hand_gain_value factor : ℚ) : ℚ :=
  if hand_gain_value * factor < 1/10 then 1/10 else hand_gain_value * factor

/-- The speed-command branch of `Scenario.command_string`
(scenarios/__init__.py:128-135): which gain each recognized speed command
scales (`true` = hand gain) and by what factor; `none` for other commands. -/
def speed_command_factor (cmd_data : List Char) : Option (Bool × ℚ) :=
  if cmd_data = "SpeedUp".toList then some (false, 12/10)
  else if cmd_data = "SpeedDown".toList then some (false, 8/10)
  else if cmd_data = "HandSpeedUp".toList then some (true, 12/10)
  else if cmd_data = "HandSpeedDown".toList then some (true, 8/10)
  else none

/-- `Scenario.update` from the classification decision on
(scenarios/__init__.py:164-200).  `decision` is `none` when
`SignalClassifier.predict` returns `decision_id = None` (the tick returns
with no Plant interaction); `cls_status` is the status string `predict`
returned.  Otherwise the code calls `Plant.new_step()` (line 176), then
checks the pause flag: when paused the status becomes `'PAUSED'` and the
tick returns (lines 179-181); when not paused it sets the grasp id if the
decision carries one, sets the grasp or joint velocity scaled by the
corresponding gain (lines 184-193), calls `Plant.update()` (line 195) and
sends the joint angles to the DataSink (line 198).  Result: the tick's
reported status and the ordered collaborator calls made after
classification. -/
def scenario_update (paused : Bool) (gain_value hand_gain_value : ℚ)
    (cls_status : String) (decision : Option ClassInfo) :
    String × List PlantCall :=
  match decision with
  | none => (cls_status, [])
  | some info =>
    if paused then ("PAUSED", [.newStep])
    else
      (cls_status,
        [PlantCall.newStep] ++
        (if info.isGrasp then
          (match info.graspId with
           | some g => [PlantCall.setGraspId g]
           | none => []) ++
          [PlantCall.setGraspVelocity (info.direction * hand_gain_value)]
         else
          [PlantCall.setJointVelocity info.jointId
            (info.direction * gain_value)]) ++
        [PlantCall.plantUpdate, PlantCall.sendJointAngles])

lemma le_gain (v f : ℚ) : 1/10 ≤ gain v f := by
  unfold gain
  split
  · exact le_refl _
  · rename_i h
    exact le_of_not_lt h

lemma le_hand_gain (v f : ℚ) : 1/10 ≤ hand_gain v f := by
  unfold hand_gain
  split
  · exact le_refl _
  · rename_i h
    exact le_of_not_lt h

lemma le_foldl_gain (factors : List ℚ) (v : ℚ) (hv : 1/10 ≤ v) :
    1/10 ≤ factors.foldl gain v := by
  induction factors generalizing v with
  | nil => exact hv
  | cons f rest ih => exact ih (gain v f) (le_gain v f)

lemma le_foldl_hand_gain (factors : List ℚ) (v : ℚ) (hv : 1/10 ≤ v) :
    1/10 ≤ factors.foldl hand_gain v := by
  induction factors generalizing v with
  | nil => exact hv
  | cons f rest ih => exact ih (hand_gain v f) (le_hand_gain v f)

end MiniVIE

/-- C9 (amended): on a paused tick that produced a classification decision,
`Plant.new_step()` IS still invoked — it precedes the pause check — but the
tick makes no other Plant or DataSink call: no velocity is set, `update()`
is not applied and no joint command is transmitted, while the returned
output carries the status `'PAUSED'`. -/
theorem C9_paused_tick_plant_interaction (gain_value hand_gain_value : ℚ)
    (cls_status : String) (info : MiniVIE.ClassInfo) :
    (MiniVIE.scenario_update true gain_value hand_gain_value cls_status
        (some info)).1 = "PAUSED" ∧
    MiniVIE.PlantCall.newStep ∈
      (MiniVIE.scenario_update true gain_value hand_gain_value cls_status
        (some info)).2 ∧
    ∀ c ∈ (MiniVIE.scenario_update true gain_value hand_gain_value cls_status
        (some info)).2, c = MiniVIE.PlantCall.newStep := by
  refine ⟨rfl, by simp [MiniVIE.scenario_update], ?_⟩
  intro c hc
  simpa [MiniVIE.scenario_update] using hc

/-- Closed witness for `C9_paused_tick_plant_interaction`: a paused tick
with an arm-class decision reports `'PAUSED'` and never reaches
`Plant.update()`. -/
theorem C9_paused_tick_plant_interaction_witness :
    (MiniVIE.scenario_update true 1 1 "RUNNING"
        (some ⟨false, none, 3, 1⟩)).1 = "PAUSED" ∧
    MiniVIE.PlantCall.plantUpdate ∉
      (MiniVIE.scenario_update true 1 1 "RUNNING"
        (some ⟨false, none, 3, 1⟩)).2 := by
  have h := C9_paused_tick_plant_interaction 1 1 "RUNNING" ⟨false, none, 3, 1⟩
  refine ⟨h.1, fun hc => ?_⟩
  cases h.2.2 _ hc

/-- C9 counterexample to the claim as stated: on a paused tick with a
decision, the Plant is NOT left untouched — `Scenario.update` calls
`Plant.new_step()` (scenarios/__init__.py:176) before checking the pause
flag (line 179), so `newStep` appears in the tick's collaborator calls. -/
theorem C9_paused_tick_calls_new_step :
    MiniVIE.PlantCall.newStep ∈
      (MiniVIE.scenario_update true 1 1 "RUNNING"
        (some ⟨false, none, 3, 1⟩)).2 ∧
    (MiniVIE.scenario_update true 1 1 "RUNNING"
        (some ⟨false, none, 3, 1⟩)).1 = "PAUSED" := by
  constructor
  · simp [MiniVIE.scenario_update]
  · rfl

/-- C10: both gain values start at 1.0 and, after any sequence of
`gain(factor)`/`hand_gain(factor)` calls with arbitrary factors, each stored
gain is at least 0.1 when a call returns — the velocity scaling can never
reach zero or go negative; the speed commands in particular apply factors
1.2 and 0.8. -/
theorem C10_gain_lower_bound :
    MiniVIE.scenario_init_gain_value = 1 ∧
    MiniVIE.scenario_init_hand_gain_value = 1 ∧
    (∀ factors : List ℚ,
      1/10 ≤ factors.foldl MiniVIE.gain MiniVIE.scenario_init_gain_value) ∧
    (∀ factors : List ℚ,
      1/10 ≤ factors.foldl MiniVIE.hand_gain
        MiniVIE.scenario_init_hand_gain_value) ∧
    (∀ cmd_data isHand factor,
      MiniVIE.speed_command_factor cmd_data = some (isHand, factor) →
        factor = 12/10 ∨ factor = 8/10) := by
  refine ⟨rfl, rfl, ?_, ?_, ?_⟩
  · intro factors
    exact MiniVIE.le_foldl_gain factors _ (by norm_num [MiniVIE.scenario_init_gain_value])
  · intro factors
    exact MiniVIE.le_foldl_hand_gain factors _
      (by norm_num [MiniVIE.scenario_init_hand_gain_value])
  · intro cmd_data isHand factor h
    unfold MiniVIE.speed_command_factor at h
    split at h
    · exact Or.inl (by cases h; rfl)
    split at h
    · exact Or.inr (by cases h; rfl)
    split at h
    · exact Or.inl (by cases h; rfl)
    split at h
    · exact Or.inr (by cases h; rfl)
    · cases h

/-- Closed witness for `C10_gain_lower_bound`: four `SpeedDown`s from the
initial gain land on the 0.1 clamp, still at least 0.1. -/
theorem C10_gain_lower_bound_witness :
    (1 : ℚ)/10 ≤ [8/10, 8/10, 8/10, 8/10].foldl MiniVIE.gain
      MiniVIE.scenario_init_gain_value := by
  exact C10_gain_lower_bound.2.2.1 [8/10, 8/10, 8/10, 8/10]
